import Mathlib

/-
Verification development for the OpenProject MCP proxy
(src/openproject/config.py and src/openproject/server.py).

The Python code is shallowly embedded: JSON values are an inductive type,
Python dict/list accesses are modelled with their raising behaviour made
explicit through `Except String`, the outbound HTTP transport is a function
from requests to `Except String Json` (an `error` result stands for any
exception raised by the HTTP call or by decoding the body), and every
fallback tool is a total function returning the string the Python function
returns.  Python `round(x, 1)` on the exact rational value is modelled with
round-half-to-even (binary floating-point representation error is
abstracted away).
-/

set_option autoImplicit false

namespace OpenProject

/-- Json models the Python values that flow through the server: None, bools,
integers, strings, lists and dicts (dicts as association lists, preserving
insertion order as Python does). -/
inductive Json where
  | null : Json
  | bool : Bool → Json
  | num : Int → Json
  | str : String → Json
  | arr : List Json → Json
  | obj : List (String × Json) → Json
deriving Repr

/-- typeName mirrors Python type names, used in AttributeError messages. -/
def Json.typeName : Json → String
  | .null => "NoneType"
  | .bool _ => "bool"
  | .num _ => "int"
  | .str _ => "str"
  | .arr _ => "list"
  | .obj _ => "dict"

/-- pyGet models Python `x.get(key, default)`: on a dict it returns the stored
value or the default; on any other value it raises AttributeError. -/
def pyGet (j : Json) (key : String) (dflt : Json) : Except String Json :=
  match j with
  | .obj kvs => .ok ((kvs.lookup key).getD dflt)
  | other => .error ("\x27" ++ other.typeName ++ "\x27 object has no attribute \x27get\x27")

/-- pyFalsy models Python truthiness: None, False, 0, empty string, empty list
and empty dict are falsy. -/
def pyFalsy : Json → Bool
  | .null => true
  | .bool b => !b
  | .num n => n == 0
  | .str s => s.data.isEmpty
  | .arr xs => xs.isEmpty
  | .obj kvs => kvs.isEmpty

/-- pyLen models Python `len(x)`, raising TypeError on unsized values. -/
def pyLen : Json → Except String Nat
  | .str s => .ok s.length
  | .arr xs => .ok xs.length
  | .obj kvs => .ok kvs.length
  | other => .error ("object of type \x27" ++ other.typeName ++ "\x27 has no len()")

/-- pySlice models Python `x[:n]` followed by iteration, for the value kinds
the server slices: lists slice to their first `n` elements and strings to
their first `n` characters (each character a one-character string); every
other value raises TypeError. -/
def pySlice (n : Nat) : Json → Except String (List Json)
  | .arr xs => .ok (xs.take n)
  | .str s => .ok ((s.data.take n).map (fun c => Json.str (String.mk [c])))
  | other => .error ("\x27" ++ other.typeName ++ "\x27 object is not subscriptable")

/-- pyIter models Python iteration over a value: lists yield their elements,
strings their characters, dicts their keys; other values raise TypeError. -/
def pyIter : Json → Except String (List Json)
  | .arr xs => .ok xs
  | .str s => .ok (s.data.map (fun c => Json.str (String.mk [c])))
  | .obj kvs => .ok (kvs.map (fun kv => Json.str kv.1))
  | other => .error ("\x27" ++ other.typeName ++ "\x27 object is not iterable")

mutual

/-- pyRepr renders a Json value the way Python `repr` (and hence f-string
formatting of dicts) renders the corresponding Python value.  String
escaping inside quotes is not modelled. -/
def pyRepr : Json → String
  | .null => "None"
  | .bool b => if b then "True" else "False"
  | .num n => toString n
  | .str s => "\x27" ++ s ++ "\x27"
  | .arr xs => "[" ++ pyReprArr xs ++ "]"
  | .obj kvs => "\x7b" ++ pyReprObj kvs ++ "\x7d"

/-- pyReprArr renders list elements separated by a comma and a space. -/
def pyReprArr : List Json → String
  | [] => ""
  | [x] => pyRepr x
  | x :: y :: xs => pyRepr x ++ ", " ++ pyReprArr (y :: xs)

/-- pyReprObj renders dict entries separated by a comma and a space. -/
def pyReprObj : List (String × Json) → String
  | [] => ""
  | [kv] => "\x27" ++ kv.1 ++ "\x27: " ++ pyRepr kv.2
  | kv :: kv2 :: kvs => "\x27" ++ kv.1 ++ "\x27: " ++ pyRepr kv.2 ++ ", " ++ pyReprObj (kv2 :: kvs)

end

/-- pyStr models Python `str(x)`: identity on strings, `repr` otherwise
(which coincides with `str` on the value kinds in scope). -/
def pyStr (j : Json) : String :=
  match j with
  | .str s => s
  | other => pyRepr other

/-- mapExcept maps a fallible function over a list, stopping at the first
error, like a Python comprehension whose body can raise. -/
def mapExcept {α β : Type} (f : α → Except String β) : List α → Except String (List β)
  | [] => .ok []
  | a :: as => do
    let b ← f a
    let bs ← mapExcept f as
    return b :: bs

/-- containsSub s pat holds when pat occurs as a contiguous substring of s. -/
def containsSub (s pat : String) : Prop := pat.data <:+: s.data

instance (s pat : String) : Decidable (containsSub s pat) :=
  inferInstanceAs (Decidable (pat.data <:+: s.data))

/-- rstripSlash models Python `v.rstrip("/")`: removes every trailing slash. -/
def rstripSlash (s : String) : String :=
  String.mk ((s.data.reverse.dropWhile (fun c => c = '/')).reverse)

/-- pyStartsWith models Python `s.startswith(pre)` at the character level. -/
def pyStartsWith (s pre : String) : Bool := pre.data.isPrefixOf s.data

/-- pyStrip models Python `s.strip()`: surrounding whitespace removed. -/
def pyStrip (s : String) : List Char :=
  ((s.data.dropWhile Char.isWhitespace).reverse.dropWhile Char.isWhitespace).reverse

/-- pyIntMsg is the ValueError message of Python `int(s)` on bad input. -/
def pyIntMsg (s : String) : String :=
  "invalid literal for int() with base 10: \x27" ++ s ++ "\x27"

/-- pyIntParse models Python `int(s)` on decimal string input: surrounding
whitespace is stripped, an optional sign is allowed, and the remainder must
be a non-empty digit sequence; otherwise ValueError is raised.  (Underscore
separators and non-ASCII digits are not modelled.) -/
def pyIntParse (s : String) : Except String Int :=
  let t := pyStrip s
  let body : List Char := if t.head? = some '-' ∨ t.head? = some '+' then t.tail else t
  let sign : Int := if t.head? = some '-' then -1 else 1
  if body ≠ [] ∧ body.all Char.isDigit then
    .ok (sign * body.foldl (fun a c => a * 10 + (c.toNat - 48 : Int)) 0)
  else .error (pyIntMsg s)

/-! Configuration (src/openproject/config.py). -/

/-- OpenProjectSettings holds the validated configuration values. -/
structure OpenProjectSettings where
  base_url : String
  api_key : String
  timeout : Int
deriving Repr, DecidableEq

/-- validate_base_url embeds the pydantic validator: the value must start
with http:// or https://, and trailing slashes are stripped. -/
def validate_base_url (v : String) : Except String String :=
  if pyStartsWith v "http://" || pyStartsWith v "https://" then
    .ok (rstripSlash v)
  else
    .error "base_url must start with http:// or https://"

/-- validate_api_key embeds the pydantic validator: the key must be at least
10 characters long. -/
def validate_api_key (v : String) : Except String String :=
  if v.length < 10 then .error "api_key appears too short" else .ok v

/-- settingsCreate models constructing OpenProjectSettings from already
type-coerced field values: the two field validators run in field order. -/
def settingsCreate (base_url api_key : String) (timeout : Int) :
    Except String OpenProjectSettings := do
  let b ← validate_base_url base_url
  let k ← validate_api_key api_key
  return { base_url := b, api_key := k, timeout := timeout }

/-- Env models the process environment as a partial map from variable names
to values. -/
def Env : Type := String → Option String

/-- primaryCreate models `OpenProjectSettings()`: pydantic reads each field
from the environment variable named by the `OPENPROJECT` prefix followed by
the field name (matched case-insensitively; modelled here with the
upper-case spelling), fails with a "field required" error when base_url or
api_key is absent, coerces timeout with int semantics (default 30), and
then runs the field validators. -/
def primaryCreate (env : Env) : Except String OpenProjectSettings :=
  match env "OPENPROJECTBASE_URL", env "OPENPROJECTAPI_KEY" with
  | some bu, some ak =>
    match env "OPENPROJECTTIMEOUT" with
    | none => settingsCreate bu ak 30
    | some ts =>
      match pyIntParse ts with
      | .error _ => .error "timeout: value is not a valid integer"
      | .ok t => settingsCreate bu ak t
  | none, _ => .error "base_url: field required"
  | some _, none => .error "api_key: field required"

/-- pyFalsyOpt models Python `not os.getenv(name)`: true when the variable is
unset or set to the empty string. -/
def pyFalsyOpt : Option String → Bool
  | none => true
  | some s => s.data.isEmpty

/-- create_with_fallback embeds OpenProjectSettings.create_with_fallback:
try the primary construction; on failure build the Smithery camelCase
mapping (converting the timeout with int() while building it, before any
presence check), then fail with an explicit "required" error if the base
URL or API key variable is missing, and otherwise construct the settings
from the fallback values. -/
def create_with_fallback (env : Env) : Except String OpenProjectSettings :=
  match primaryCreate env with
  | .ok s => .ok s
  | .error _ =>
    match pyIntParse ((env "openprojectTimeout").getD "30") with
    | .error e => .error e
    | .ok t =>
      if pyFalsyOpt (env "openprojectBaseUrl") then
        .error "OPENPROJECT_BASE_URL or openprojectBaseUrl is required"
      else if pyFalsyOpt (env "openprojectApiKey") then
        .error "OPENPROJECT_API_KEY or openprojectApiKey is required"
      else
        settingsCreate ((env "openprojectBaseUrl").getD "") ((env "openprojectApiKey").getD "") t

/-! Outbound requests and the transport (src/openproject/server.py).
A request records the relative path of an `await client.get(...)` call and
the value of its `filters` query parameter when one is passed.  The remote
is a function from requests to `Except String Json`; an `error` result
stands for any exception raised by the HTTP call, by `raise_for_status`, or
by decoding the response body. -/

/-- Request records one outbound GET: its relative path and the optional
filters query parameter. -/
structure Request where
  path : String
  filters : Option String
deriving Repr, DecidableEq

/-- openStatusFilter is the literal filter string for open work packages. -/
def openStatusFilter : String :=
  "[\x7b \"status\": \x7b \"operator\": \"o\", \"values\": [] \x7d \x7d]"

/-- dueDateFilter is the literal filter string for work packages due within
the given number of days (the value is interpolated as text). -/
def dueDateFilter (v : String) : String :=
  "[\x7b \"dueDate\": \x7b \"operator\": \"<t+\", \"values\": [\"" ++ v ++ "\"] \x7d \x7d]"

/-- projectsReq is the GET against the projects collection. -/
def projectsReq : Request := { path := "/api/v3/projects", filters := none }

/-- projectDetailReq is the GET for one project by id. -/
def projectDetailReq (pid : String) : Request :=
  { path := "/api/v3/projects/" ++ pid, filters := none }

/-- projectWPReq is the GET issued by get_project_work_packages: the filter
selects open status when status_filter is "open" and is the empty filter
list otherwise. -/
def projectWPReq (pid sf : String) : Request :=
  { path := "/api/v3/projects/" ++ pid ++ "/work_packages",
    filters := some (if sf == "open" then openStatusFilter else "[]") }

/-- openWPReq is the open-work-packages GET the weekly report issues per
project (same path and filter string as projectWPReq with "open"). -/
def openWPReq (pid : String) : Request :=
  { path := "/api/v3/projects/" ++ pid ++ "/work_packages",
    filters := some openStatusFilter }

/-- projectOverdueReq is the due-within-7-days GET the weekly report issues
per project. -/
def projectOverdueReq (pid : String) : Request :=
  { path := "/api/v3/projects/" ++ pid ++ "/work_packages",
    filters := some (dueDateFilter "7") }

/-- globalOverdueReq is the GET issued by get_overdue_work_packages against
the global work-packages collection. -/
def globalOverdueReq (days : Int) : Request :=
  { path := "/api/v3/work_packages", filters := some (dueDateFilter (toString days)) }

/-- userReq is the GET for one user by id. -/
def userReq (uid : String) : Request :=
  { path := "/api/v3/users/" ++ uid, filters := none }

/-- Remote models the shared HTTP client: a map from requests to either a
decoded JSON body or a raised exception message. -/
def Remote : Type := Request → Except String Json

/-! Manual fallback tools (src/openproject/server.py, fallback branch of
create_mcp_server). -/

/-- get_status returns a constant string. -/
def get_status : String :=
  "OpenProject MCP Server is running with manual API tools (enhanced fallback mode)"

/-- get_projects_inner is the body of the get_projects try block. -/
def get_projects_inner (remote : Remote) : Except String String := do
  let data ← remote projectsReq
  return "Projects retrieved successfully: " ++ pyRepr data

/-- get_projects embeds the fallback tool of the same name. -/
def get_projects (remote : Remote) : String :=
  match get_projects_inner remote with
  | .ok s => s
  | .error e => "Error retrieving projects: " ++ e

/-- reshapeWP embeds the per-item reshaping of get_project_work_packages:
id, subject, status name, assignee name, due date and percentage done, each
read with dict-get semantics that raise on non-dict receivers. -/
def reshapeWP (wp : Json) : Except String Json := do
  let idv ← pyGet wp "id" .null
  let subject ← pyGet wp "subject" .null
  let emb ← pyGet wp "_embedded" (.obj [])
  let st ← pyGet emb "status" (.obj [])
  let stName ← pyGet st "name" .null
  let asg ← pyGet emb "assignee" (.obj [])
  let asgName ← pyGet asg "name" .null
  let dd ← pyGet wp "dueDate" .null
  let pd ← pyGet wp "percentageDone" .null
  return .obj [("id", idv), ("subject", subject), ("status", stName),
               ("assignee", asgName), ("dueDate", dd), ("percentageDone", pd)]

/-- get_project_work_packages_inner is the body of the tool's try block:
one GET, then extraction of total and of the first 10 elements, reshaped. -/
def get_project_work_packages_inner (pid sf : String) (remote : Remote) :
    Except String Json := do
  let data ← remote (projectWPReq pid sf)
  let total ← pyGet data "total" (.num 0)
  let emb ← pyGet data "_embedded" (.obj [])
  let elems ← pyGet emb "elements" (.arr [])
  let wps ← pySlice 10 elems
  let items ← mapExcept reshapeWP wps
  return .obj [("project_id", .str pid), ("total_work_packages", total),
               ("status_filter", .str sf), ("work_packages", .arr items)]

/-- get_project_work_packages embeds the fallback tool of the same name. -/
def get_project_work_packages (pid sf : String) (remote : Remote) : String :=
  match get_project_work_packages_inner pid sf remote with
  | .ok j => "Project work packages: " ++ pyRepr j
  | .error e => "Error retrieving project work packages: " ++ e

/-- reshapeOverdueWP embeds the per-item reshaping of
get_overdue_work_packages (same as reshapeWP plus the project name). -/
def reshapeOverdueWP (wp : Json) : Except String Json := do
  let idv ← pyGet wp "id" .null
  let subject ← pyGet wp "subject" .null
  let emb ← pyGet wp "_embedded" (.obj [])
  let proj ← pyGet emb "project" (.obj [])
  let projName ← pyGet proj "name" .null
  let st ← pyGet emb "status" (.obj [])
  let stName ← pyGet st "name" .null
  let asg ← pyGet emb "assignee" (.obj [])
  let asgName ← pyGet asg "name" .null
  let dd ← pyGet wp "dueDate" .null
  let pd ← pyGet wp "percentageDone" .null
  return .obj [("id", idv), ("subject", subject), ("project", projName),
               ("status", stName), ("assignee", asgName), ("dueDate", dd),
               ("percentageDone", pd)]

/-- get_overdue_work_packages_inner is the body of the tool's try block. -/
def get_overdue_work_packages_inner (days : Int) (remote : Remote) :
    Except String Json := do
  let data ← remote (globalOverdueReq days)
  let total ← pyGet data "total" (.num 0)
  let emb ← pyGet data "_embedded" (.obj [])
  let elems ← pyGet emb "elements" (.arr [])
  let wps ← pySlice 15 elems
  let items ← mapExcept reshapeOverdueWP wps
  return .obj [("days_ahead", .num days), ("total_overdue", total),
               ("urgent_work_packages", .arr items)]

/-- get_overdue_work_packages embeds the fallback tool of the same name. -/
def get_overdue_work_packages (days : Int) (remote : Remote) : String :=
  match get_overdue_work_packages_inner days remote with
  | .ok j => "Overdue/Urgent work packages: " ++ pyRepr j
  | .error e => "Error retrieving overdue work packages: " ++ e

/-- get_user_info_inner is the body of the tool's try block. -/
def get_user_info_inner (uid : String) (remote : Remote) : Except String String := do
  let data ← remote (userReq uid)
  return "User information: " ++ pyRepr data

/-- get_user_info embeds the fallback tool of the same name. -/
def get_user_info (uid : String) (remote : Remote) : String :=
  match get_user_info_inner uid remote with
  | .ok s => s
  | .error e => "Error retrieving user info: " ++ e

/-! Weekly report (generate_weekly_report and
_calculate_project_completion). -/

/-- PyNum distinguishes the Python int 0 returned on the empty or failing
branch of _calculate_project_completion from the float returned by round. -/
inductive PyNum where
  | int : Int → PyNum
  | float : Rat → PyNum
deriving Repr, DecidableEq

/-- roundHalfEven rounds a rational to the nearest integer, ties to even,
which is Python's rounding mode. -/
def roundHalfEven (x : Rat) : Int :=
  let f := ⌊x⌋
  let r := x - f
  if r < 1 / 2 then f
  else if 1 / 2 < r then f + 1
  else if f % 2 = 0 then f else f + 1

/-- pyRound1 models Python round(x, 1) on the exact rational value. -/
def pyRound1 (x : Rat) : Rat := (roundHalfEven (10 * x) : Rat) / 10

/-- pdOf models evaluating `wp.get("percentageDone", 0)` inside the sum of
_calculate_project_completion: a missing key contributes 0, an int (or
bool, which Python sums as an int) contributes its value, any other stored
value makes the sum raise TypeError, and a non-dict element raises
AttributeError. -/
def pdOf (wp : Json) : Except String Int :=
  match wp with
  | .obj kvs =>
    match (kvs.lookup "percentageDone").getD (.num 0) with
    | .num n => .ok n
    | .bool b => .ok (if b then 1 else 0)
    | other => .error ("unsupported operand type(s) for +: \x27int\x27 and \x27" ++
        other.typeName ++ "\x27")
  | other => .error ("\x27" ++ other.typeName ++ "\x27 object has no attribute \x27get\x27")

/-- calcInner is the body of the try block of
_calculate_project_completion. -/
def calcInner (data : Json) : Except String PyNum := do
  let emb ← pyGet data "_embedded" (.obj [])
  let elems ← pyGet emb "elements" (.arr [])
  if pyFalsy elems then
    return .int 0
  else do
    let wps ← pyIter elems
    let ns ← mapExcept pdOf wps
    return .float (pyRound1 ((ns.sum : Rat) / (wps.length : Rat)))

/-- _calculate_project_completion embeds the helper of the same name: its
bare except turns any raised error into the int 0. -/
def _calculate_project_completion (data : Json) : PyNum :=
  match calcInner data with
  | .ok v => v
  | .error _ => .int 0

/-- ProjectSummary is one entry of the report's projects_summary list. -/
structure ProjectSummary where
  project_id : String
  project_name : Json
  total_open : Json
  urgent : Json
  completion : PyNum
deriving Repr

/-- WeeklyReport is the report dict built by generate_weekly_report. -/
structure WeeklyReport where
  report_type : String
  generated_at : String
  projects_summary : List ProjectSummary
deriving Repr

/-- PyNum.render renders an int as Python does and a one-decimal float the
way Python repr renders the result of round(x, 1). -/
def PyNum.render : PyNum → String
  | .int n => toString n
  | .float q =>
    let m := ⌊10 * q⌋
    (if m < 0 then "-" else "") ++ toString (m.natAbs / 10) ++ "." ++ toString (m.natAbs % 10)

/-- renderProjectSummary renders one summary dict as Python repr does. -/
def renderProjectSummary (s : ProjectSummary) : String :=
  "\x7b\x27project_id\x27: " ++ pyRepr (.str s.project_id) ++
  ", \x27project_name\x27: " ++ pyRepr s.project_name ++
  ", \x27total_open_work_packages\x27: " ++ pyRepr s.total_open ++
  ", \x27urgent_work_packages\x27: " ++ pyRepr s.urgent ++
  ", \x27completion_percentage\x27: " ++ s.completion.render ++ "\x7d"

/-- renderSummaries renders the projects_summary list. -/
def renderSummaries : List ProjectSummary → String
  | [] => ""
  | [s] => renderProjectSummary s
  | s :: s2 :: ss => renderProjectSummary s ++ ", " ++ renderSummaries (s2 :: ss)

/-- renderWeeklyReport renders the report dict as Python repr does. -/
def renderWeeklyReport (r : WeeklyReport) : String :=
  "\x7b\x27report_type\x27: \x27" ++ r.report_type ++
  "\x27, \x27generated_at\x27: \x27" ++ r.generated_at ++
  "\x27, \x27projects_summary\x27: [" ++ renderSummaries r.projects_summary ++ "]\x7d"

/-- threeCalls lists the three GETs the weekly report performs per project,
in order: project detail, open work packages, overdue work packages. -/
def threeCalls (pid : String) : List Request :=
  [projectDetailReq pid, openWPReq pid, projectOverdueReq pid]

/-- analyzeProject embeds one iteration of the weekly-report loop.  It
returns the summary (or the raised error) together with the list of
outbound calls actually issued, in order; a raised error stops the
iteration at the failing call. -/
def analyzeProject (remote : Remote) (pid : String) :
    Except String ProjectSummary × List Request :=
  match remote (projectDetailReq pid) with
  | .error e => (.error e, [projectDetailReq pid])
  | .ok pdata =>
    match remote (openWPReq pid) with
    | .error e => (.error e, [projectDetailReq pid, openWPReq pid])
    | .ok odata =>
      match remote (projectOverdueReq pid) with
      | .error e => (.error e, threeCalls pid)
      | .ok udata =>
        match (do
          let name ← pyGet pdata "name" .null
          let tot ← pyGet odata "total" (.num 0)
          let urg ← pyGet udata "total" (.num 0)
          return ProjectSummary.mk pid name tot urg (_calculate_project_completion odata) :
          Except String ProjectSummary) with
        | .error e => (.error e, threeCalls pid)
        | .ok s => (.ok s, threeCalls pid)

/-- analyzeLoop runs analyzeProject over a list of project ids,
accumulating summaries and outbound calls and stopping at the first raised
error. -/
def analyzeLoop (remote : Remote) : List String → Except String (List ProjectSummary) × List Request
  | [] => (.ok [], [])
  | pid :: rest =>
    match analyzeProject remote pid with
    | (.error e, calls) => (.error e, calls)
    | (.ok s, calls) =>
      match analyzeLoop remote rest with
      | (.error e, calls2) => (.error e, calls ++ calls2)
      | (.ok ss, calls2) => (.ok (s :: ss), calls ++ calls2)

/-- extractProjectIds embeds the comprehension that turns the projects
response into the list of project-id strings. -/
def extractProjectIds (pdata : Json) : Except String (List String) := do
  let emb ← pyGet pdata "_embedded" (.obj [])
  let elems ← pyGet emb "elements" (.arr [])
  let ps ← pyIter elems
  mapExcept (fun p => do
    let i ← pyGet p "id" .null
    return pyStr i) ps

/-- liftReport wraps an analyzed summary list into the report dict, whose
report_type and generated_at entries are hard-coded literals. -/
def liftReport (r : Except String (List ProjectSummary)) : Except String WeeklyReport :=
  r.map (fun ss => ⟨"weekly_project_summary", "2025-10-20", ss⟩)

/-- generate_weekly_report_run embeds the body of generate_weekly_report up
to rendering: when the argument is None or the empty list it first lists
all projects and extracts their ids, then analyzes the first (at most) 5
ids; it returns the report (or the raised error) and the ordered list of
outbound calls issued. -/
def generate_weekly_report_run (project_ids : Option (List String)) (remote : Remote) :
    Except String WeeklyReport × List Request :=
  match project_ids with
  | some (pid :: rest) =>
    let (r, calls) := analyzeLoop remote ((pid :: rest).take 5)
    (liftReport r, calls)
  | _ =>
    match remote projectsReq with
    | .error e => (.error e, [projectsReq])
    | .ok pdata =>
      match extractProjectIds pdata with
      | .error e => (.error e, [projectsReq])
      | .ok ids =>
        let (r, calls) := analyzeLoop remote (ids.take 5)
        (liftReport r, projectsReq :: calls)

/-- generate_weekly_report embeds the fallback tool of the same name. -/
def generate_weekly_report (project_ids : Option (List String)) (remote : Remote) : String :=
  match generate_weekly_report_run project_ids remote with
  | (.ok rep, _) => "Weekly report generated: " ++ renderWeeklyReport rep
  | (.error e, _) => "Error generating weekly report: " ++ e

/-! Tool-surface builder and server creation (create_mcp_server). -/

/-- Provenance records whether a registered tool came from the OpenAPI
translator or from the hand-written fallback set. -/
inductive Provenance where
  | translated : Provenance
  | manual : Provenance
deriving Repr, DecidableEq

/-- ToolDecl is one entry of the tool registry. -/
structure ToolDecl where
  name : String
  provenance : Provenance
deriving Repr, DecidableEq

/-- manualTools is the fixed hand-authored tool set registered in the
fallback branch, in registration order. -/
def manualTools : List ToolDecl :=
  [⟨"get_status", .manual⟩, ⟨"get_projects", .manual⟩,
   ⟨"get_project_work_packages", .manual⟩, ⟨"get_overdue_work_packages", .manual⟩,
   ⟨"get_user_info", .manual⟩, ⟨"generate_weekly_report", .manual⟩]

/-- buildToolSurface is the one decision point: use the translator output
when it succeeded, otherwise register exactly the manual tools. -/
def buildToolSurface (translated : Except String (List String)) : List ToolDecl :=
  match translated with
  | .ok names => names.map (fun n => ⟨n, .translated⟩)
  | .error _ => manualTools

/-- load_openapi_spec embeds the loader: a missing file raises
FileNotFoundError naming the resolved path; a parser error is wrapped into
a ValueError; on success the count of top-level path entries is taken
(raising, unwrapped, if the parsed document is not sized the way the code
expects). -/
def load_openapi_spec (specPath : String) (file : Option String)
    (parseYaml : String → Except String Json) : Except String Json :=
  match file with
  | none => .error ("OpenAPI spec file not found: " ++ specPath)
  | some content =>
    match parseYaml content with
    | .error e => .error ("Invalid YAML in OpenAPI spec: " ++ e)
    | .ok spec => do
      let paths ← pyGet spec "paths" (.obj [])
      let _ ← pyLen paths
      return spec

/-- createMcpServer embeds create_mcp_server: construct the settings, build
the (lazy, network-free) client, load the spec, then build the tool surface
from the translator result.  The translator is the only component consulted
after the spec loads; any earlier failure propagates without reaching it. -/
def createMcpServer (env : Env) (specPath : String) (file : Option String)
    (parseYaml : String → Except String Json)
    (translator : Json → Except String (List String)) : Except String (List ToolDecl) := do
  let _config ← primaryCreate env
  let spec ← load_openapi_spec specPath file parseYaml
  return buildToolSurface (translator spec)

/-! HTTP front-end (main). -/

/-- HttpResponse is the status code and JSON body of a side route. -/
structure HttpResponse where
  statusCode : Nat
  body : Json
deriving Repr

/-- health_check embeds the /health handler: a constant JSONResponse (whose
default status code is 200), computed without touching the remote client or
the request. -/
def health_check (_remote : Remote) (_requestPath : String) : HttpResponse :=
  { statusCode := 200,
    body := .obj [("status", .str "healthy"),
                  ("service", .str "openproject-mcp-server"),
                  ("version", .str "0.0.1")] }

/-! Claim-level characterisation of the work-package reshaping. -/

/-- isObj tests whether a Json value is a dict. -/
def isObj : Json → Bool
  | .obj _ => true
  | _ => false

/-- objGetD is total dict lookup with a default (the non-raising core of
pyGet, meaningful on dicts). -/
def objGetD (wp : Json) (key : String) (dflt : Json) : Json :=
  match wp with
  | .obj kvs => (kvs.lookup key).getD dflt
  | _ => dflt

/-- embOf extracts a work package's _embedded table (empty when absent or
not a dict). -/
def embOf (wp : Json) : List (String × Json) :=
  match objGetD wp "_embedded" (.obj []) with
  | .obj ekvs => ekvs
  | _ => []

/-- wellFormedWP holds when a work-package item can be reshaped without
raising: the item is a dict, and its _embedded member — dict-defaulted
when absent — is a dict whose status and assignee members, likewise
defaulted, are dicts. -/
def wellFormedWP (wp : Json) : Bool :=
  isObj wp &&
  isObj (objGetD wp "_embedded" (.obj [])) &&
  isObj (((embOf wp).lookup "status").getD (.obj [])) &&
  isObj (((embOf wp).lookup "assignee").getD (.obj []))

/-- nameOf reads the name field of an embedded sub-object such as status
or assignee. -/
def nameOf (ekvs : List (String × Json)) (key : String) : Json :=
  match (ekvs.lookup key).getD (.obj []) with
  | .obj skvs => (skvs.lookup "name").getD .null
  | _ => .null

/-- reshapedWP is the claim-level reshaping of one work-package item into
exactly the six documented fields; on well-formed items it coincides with
what the tool computes. -/
def reshapedWP (wp : Json) : Json :=
  .obj [("id", objGetD wp "id" .null), ("subject", objGetD wp "subject" .null),
        ("status", nameOf (embOf wp) "status"),
        ("assignee", nameOf (embOf wp) "assignee"),
        ("dueDate", objGetD wp "dueDate" .null),
        ("percentageDone", objGetD wp "percentageDone" .null)]

/-! Concrete environments, stub parsers, stub translators and stub remotes
used by closed statements below. -/

/-- wpA is a work package carrying only scalar fields. -/
def wpA : Json := .obj [("id", .num 1), ("subject", .str "A"), ("percentageDone", .num 40)]

/-- wpB is a work package carrying an embedded status object. -/
def wpB : Json :=
  .obj [("id", .num 2), ("subject", .str "B"),
        ("_embedded", .obj [("status", .obj [("name", .str "New")])])]

/-- envTimeoutGarbage has every settings variable absent except the
alternate timeout variable, which holds a non-integer string. -/
def envTimeoutGarbage : Env := fun k =>
  if k = "openprojectTimeout" then some "abc" else none

/-- envEmpty has every variable absent. -/
def envEmpty : Env := fun _ => none

/-- envPrimaryOk carries a well-formed primary-convention configuration. -/
def envPrimaryOk : Env := fun k =>
  if k = "OPENPROJECTBASE_URL" then some "https://op.example.com"
  else if k = "OPENPROJECTAPI_KEY" then some "abcdefghij"
  else none

/-- envSmitheryOk has the primary variables absent and a well-formed
alternate (camelCase) configuration with the timeout variable unset. -/
def envSmitheryOk : Env := fun k =>
  if k = "openprojectBaseUrl" then some "https://op.example.com/"
  else if k = "openprojectApiKey" then some "abcdefghij"
  else none

/-- parseOkStub is a parser that accepts anything as a spec with an empty
paths table. -/
def parseOkStub : String → Except String Json := fun _ => .ok (.obj [("paths", .obj [])])

/-- parseFailStub is a parser that rejects anything. -/
def parseFailStub : String → Except String Json := fun _ => .error "mapping values are not allowed here"

/-- translatorFail is a translator that raises on invocation. -/
def translatorFail : Json → Except String (List String) := fun _ => .error "unsupported schema shape"

/-- wpCollection is the remote response shape the work-package tools read:
a total count and an embedded elements list. -/
def wpCollection (n : Json) (es : List Json) : Json :=
  .obj [("total", n), ("_embedded", .obj [("elements", .arr es)])]

/-- projectsCollection is the remote response shape the project-listing
calls read. -/
def projectsCollection (ps : List Json) : Json :=
  .obj [("_embedded", .obj [("elements", .arr ps)])]

/-- remoteDown is a remote on which every call raises. -/
def remoteDown : Remote := fun _ => .error "Connection refused"

/-- remoteNonDictElements answers the open-work-packages query for project
42 with a response of the documented shape whose elements are ints. -/
def remoteNonDictElements : Remote := fun r =>
  if r = projectWPReq "42" "open" then .ok (wpCollection (.num 2) [.num 5, .num 6])
  else .error "unreachable"

/-- remoteTwoWP answers the open-work-packages query for project 42 with
two well-formed work packages. -/
def remoteTwoWP : Remote := fun r =>
  if r = projectWPReq "42" "open" then .ok (wpCollection (.num 2) [wpA, wpB])
  else .error "unreachable"

/-- remoteEmptyProject exposes one project (id 7) with no open and no
urgent work packages. -/
def remoteEmptyProject : Remote := fun r =>
  if r = projectsReq then .ok (projectsCollection [.obj [("id", .num 7)]])
  else if r = projectDetailReq "7" then .ok (.obj [("name", .str "Proj7")])
  else if r = openWPReq "7" then .ok (wpCollection (.num 0) [])
  else if r = projectOverdueReq "7" then .ok (wpCollection (.num 0) [])
  else .error "unexpected"

/-- remoteOneProject exposes one project (id 7) with two open work packages
at 30 and 40 percent done and one urgent work package. -/
def remoteOneProject : Remote := fun r =>
  if r = projectsReq then .ok (projectsCollection [.obj [("id", .num 7)]])
  else if r = projectDetailReq "7" then .ok (.obj [("name", .str "Proj7")])
  else if r = openWPReq "7" then
    .ok (wpCollection (.num 2)
      [.obj [("percentageDone", .num 30)], .obj [("percentageDone", .num 40)]])
  else if r = projectOverdueReq "7" then .ok (wpCollection (.num 1) [])
  else .error "unexpected"

/-! Helper lemmas. -/

@[simp] theorem exceptPure {α : Type} (a : α) : (pure a : Except String α) = .ok a := rfl

@[simp] theorem exceptBindOk {α β : Type} (a : α) (k : α → Except String β) :
    (Except.ok a >>= k : Except String β) = k a := rfl

@[simp] theorem exceptBindErr {α β : Type} (e : String) (k : α → Except String β) :
    (Except.error e >>= k : Except String β) = .error e := rfl

@[simp] theorem exceptMapOk {α β : Type} (g : α → β) (a : α) :
    (g <$> (Except.ok a : Except String α)) = .ok (g a) := rfl

@[simp] theorem exceptMapErr {α β : Type} (g : α → β) (e : String) :
    (g <$> (Except.error e : Except String α)) = .error e := rfl

theorem head_dropWhile_not {α : Type} (p : α → Bool) :
    (l : List α) → ∀ a, (l.dropWhile p).head? = some a → p a = false
  | [], a => by simp [List.dropWhile]
  | x :: xs, a => by
    by_cases hx : p x
    · simpa [List.dropWhile, hx] using head_dropWhile_not p xs a
    · simp [List.dropWhile, hx]
      rintro rfl
      simpa using hx

theorem rstripSlash_no_trailing (s : String) :
    (rstripSlash s).data.getLast? ≠ some '/' := by
  intro h
  have h2 : (s.data.reverse.dropWhile (fun c => c = '/')).head? = some '/' := by
    simpa [rstripSlash, List.getLast?_reverse] using h
  have := head_dropWhile_not _ _ _ h2
  simp at this

theorem mapExcept_eq_map {α β : Type} (f : α → Except String β) (g : α → β) :
    ∀ l : List α, (∀ a ∈ l, f a = .ok (g a)) → mapExcept f l = .ok (l.map g)
  | [], _ => rfl
  | a :: as, h => by
    have ha := h a (by simp)
    have hr := mapExcept_eq_map f g as (fun x hx => h x (by simp [hx]))
    simp [mapExcept, ha, hr, Except.bind]

theorem mapExcept_ok_length {α β : Type} (f : α → Except String β) :
    ∀ (l : List α) (bs : List β), mapExcept f l = .ok bs → bs.length = l.length := by
  intro l
  induction l with
  | nil => intro bs h; simp [mapExcept] at h; simp [← h]
  | cons a as ih =>
    intro bs h
    cases hfa : f a with
    | error e => simp [mapExcept, hfa, Except.bind] at h
    | ok b =>
      cases hr : mapExcept f as with
      | error e => simp [mapExcept, hfa, hr, Except.bind] at h
      | ok bs' =>
        simp [mapExcept, hfa, hr, Except.bind, Except.pure] at h
        simp [← h, ih bs' hr]

theorem containsSub_app_left {s : String} (p : String) (t : String)
    (h : containsSub s p) : containsSub (s ++ t) p := by
  obtain ⟨u, v, huv⟩ := h
  exact ⟨u, v ++ t.data, by rw [String.data_append, ← huv]; simp⟩

theorem containsSub_right (a b : String) : containsSub (a ++ b) b :=
  ⟨a.data, [], by simp [String.data_append]⟩

theorem settingsCreate_eval (bu ak : String) (t : Int) :
    settingsCreate bu ak t =
      if (pyStartsWith bu "http://" || pyStartsWith bu "https://") = true then
        if ak.length < 10 then .error "api_key appears too short"
        else .ok ⟨rstripSlash bu, ak, t⟩
      else .error "base_url must start with http:// or https://" := by
  by_cases h1 : (pyStartsWith bu "http://" || pyStartsWith bu "https://") = true <;>
    by_cases h2 : ak.length < 10 <;>
      simp [settingsCreate, validate_base_url, validate_api_key, h1, h2]

theorem pyIntParse_error_shape (s e : String) (h : pyIntParse s = .error e) :
    e = pyIntMsg s := by
  unfold pyIntParse at h
  dsimp only at h
  split at h <;> split at h <;> simp at h <;> exact h.symm

/-! Claim theorems. -/

/-- C3: Settings construction succeeds exactly when the base URL has an
http or https scheme and the API key has at least 10 characters; on
success the stored base_url is the input with every trailing slash
stripped (in particular it does not end in a slash) and the key and
timeout are stored unchanged; on violation the construction fails with an
error message identifying the invalid field. -/
theorem settings_validation_correct (bu ak : String) (t : Int) :
    ((∃ s, settingsCreate bu ak t = .ok s) ↔
      ((pyStartsWith bu "http://" = true ∨ pyStartsWith bu "https://" = true) ∧ 10 ≤ ak.length))
    ∧ (∀ s, settingsCreate bu ak t = .ok s →
        s.base_url = rstripSlash bu ∧ s.base_url.data.getLast? ≠ some '/' ∧
        s.api_key = ak ∧ s.timeout = t)
    ∧ (¬ (pyStartsWith bu "http://" = true ∨ pyStartsWith bu "https://" = true) →
        settingsCreate bu ak t = .error "base_url must start with http:// or https://" ∧
        containsSub "base_url must start with http:// or https://" "base_url")
    ∧ ((pyStartsWith bu "http://" = true ∨ pyStartsWith bu "https://" = true) → ak.length < 10 →
        settingsCreate bu ak t = .error "api_key appears too short" ∧
        containsSub "api_key appears too short" "api_key") := by
  refine ⟨?_, ?_, ?_, ?_⟩
  · constructor
    · rintro ⟨s, hs⟩
      rw [settingsCreate_eval] at hs
      by_cases h1 : (pyStartsWith bu "http://" || pyStartsWith bu "https://") = true
      · by_cases h2 : ak.length < 10
        · simp [h1, h2] at hs
        · exact ⟨by simpa [Bool.or_eq_true] using h1, by omega⟩
      · simp [h1] at hs
    · rintro ⟨h1, h2⟩
      rw [settingsCreate_eval]
      have h1b : (pyStartsWith bu "http://" || pyStartsWith bu "https://") = true := by
        simpa [Bool.or_eq_true] using h1
      have h2b : ¬ ak.length < 10 := by omega
      refine ⟨⟨rstripSlash bu, ak, t⟩, ?_⟩
      simp [h1b, h2b]
  · intro s hs
    rw [settingsCreate_eval] at hs
    by_cases h1 : (pyStartsWith bu "http://" || pyStartsWith bu "https://") = true
    · by_cases h2 : ak.length < 10
      · simp [h1, h2] at hs
      · simp [h1, h2] at hs
        refine ⟨by simp [← hs], ?_, by simp [← hs], by simp [← hs]⟩
        rw [show s.base_url = rstripSlash bu from by simp [← hs]]
        exact rstripSlash_no_trailing bu
    · simp [h1] at hs
  · intro h1
    have h1b : (pyStartsWith bu "http://" || pyStartsWith bu "https://") = false := by
      simpa [Bool.or_eq_true, Bool.not_eq_true] using h1
    exact ⟨by rw [settingsCreate_eval]; simp [h1b], by decide⟩
  · intro h1 h2
    have h1b : (pyStartsWith bu "http://" || pyStartsWith bu "https://") = true := by
      simpa [Bool.or_eq_true] using h1
    exact ⟨by rw [settingsCreate_eval]; simp [h1b, h2], by decide⟩

/-- C3 witness: at base_url "https://op.example.com/" and a 10-character
key, construction succeeds with the trailing slash stripped; at a
scheme-less URL or a short key it fails naming the field. -/
theorem settings_validation_witness :
    ((∃ s, settingsCreate "https://op.example.com/" "abcdefghij" 30 = .ok s) ↔
      ((pyStartsWith "https://op.example.com/" "http://" = true ∨
        pyStartsWith "https://op.example.com/" "https://" = true) ∧
        10 ≤ "abcdefghij".length)) ∧
    (∀ s, settingsCreate "https://op.example.com/" "abcdefghij" 30 = .ok s →
        s.base_url = rstripSlash "https://op.example.com/" ∧
        s.base_url.data.getLast? ≠ some '/' ∧
        s.api_key = "abcdefghij" ∧ s.timeout = 30) ∧
    (settingsCreate "ftp://op.example.com" "abcdefghij" 30 =
        .error "base_url must start with http:// or https://") ∧
    (settingsCreate "https://op.example.com/" "short" 30 =
        .error "api_key appears too short") :=
  ⟨(settings_validation_correct "https://op.example.com/" "abcdefghij" 30).1,
   (settings_validation_correct "https://op.example.com/" "abcdefghij" 30).2.1,
   ((settings_validation_correct "ftp://op.example.com" "abcdefghij" 30).2.2.1
      (by decide)).1,
   ((settings_validation_correct "https://op.example.com/" "short" 30).2.2.2
      (by decide) (by decide)).1⟩

/-- C8: the /health handler returns status code 200 with a body whose
status field is "healthy" and fixed service and version fields, whatever
the request and whatever the remote API would answer (the handler never
consults it). -/
theorem health_always_healthy (remote : Remote) (requestPath : String) :
    (health_check remote requestPath).statusCode = 200 ∧
    pyGet (health_check remote requestPath).body "status" .null = .ok (.str "healthy") ∧
    (health_check remote requestPath).body =
      .obj [("status", .str "healthy"), ("service", .str "openproject-mcp-server"),
            ("version", .str "0.0.1")] :=
  ⟨rfl, rfl, rfl⟩

/-- C10: in the fallback path the alternate timeout variable is converted
with int() while the Smithery mapping is built, before the presence of the
base URL and API key is checked; with a non-integer timeout string and
both of those variables absent, create_with_fallback fails with the
integer-conversion error, not with either "required" error. -/
theorem fallback_timeout_conversion_first (env : Env) (ts e : String)
    (hprim : ∀ s, primaryCreate env ≠ .ok s)
    (hts : env "openprojectTimeout" = some ts)
    (hbad : pyIntParse ts = .error e)
    (hbu : env "openprojectBaseUrl" = none)
    (hak : env "openprojectApiKey" = none) :
    create_with_fallback env = .error e ∧
    e = "invalid literal for int() with base 10: \x27" ++ ts ++ "\x27" ∧
    create_with_fallback env ≠
      .error "OPENPROJECT_BASE_URL or openprojectBaseUrl is required" ∧
    create_with_fallback env ≠
      .error "OPENPROJECT_API_KEY or openprojectApiKey is required" := by
  have he := pyIntParse_error_shape ts e hbad
  have hfb : create_with_fallback env = .error e := by
    cases hp : primaryCreate env with
    | ok s => exact absurd hp (hprim s)
    | error e0 => simp [create_with_fallback, hp, hts, hbad]
  have hne : ∀ req : String, req.data.head? = some 'O' → e ≠ req := by
    intro req hreq heq
    rw [he] at heq
    have h2 := congrArg (fun x : String => x.data.head?) heq
    simp only [pyIntMsg, String.data_append, List.head?_append] at h2
    rw [hreq, show ("invalid literal for int() with base 10: \x27".data).head? = some 'i'
      from rfl] at h2
    rw [show ∀ (x y : Option Char), (((some 'i').or x).or y) = some 'i'
      from fun x y => rfl] at h2
    exact absurd h2 (by decide)
  refine ⟨hfb, he, ?_, ?_⟩
  · rw [hfb]
    simp only [ne_eq, Except.error.injEq]
    exact hne _ rfl
  · rw [hfb]
    simp only [ne_eq, Except.error.injEq]
    exact hne _ rfl

/-- C10 witness: with only openprojectTimeout set, to "abc",
create_with_fallback fails with the int() conversion error. -/
theorem fallback_timeout_conversion_first_witness :
    create_with_fallback envTimeoutGarbage =
      .error "invalid literal for int() with base 10: \x27abc\x27" ∧
    "invalid literal for int() with base 10: \x27abc\x27" =
      "invalid literal for int() with base 10: \x27" ++ "abc" ++ "\x27" ∧
    create_with_fallback envTimeoutGarbage ≠
      .error "OPENPROJECT_BASE_URL or openprojectBaseUrl is required" ∧
    create_with_fallback envTimeoutGarbage ≠
      .error "OPENPROJECT_API_KEY or openprojectApiKey is required" :=
  fallback_timeout_conversion_first envTimeoutGarbage "abc"
    "invalid literal for int() with base 10: \x27abc\x27"
    (by intro s h; simp [primaryCreate, envTimeoutGarbage] at h)
    (by rfl) (by rfl) (by rfl) (by rfl)

/-- C4 counterexample: in an environment where every base-URL and API-key
variable (both conventions) is absent but openprojectTimeout holds the
non-integer "abc", construction fails with the int() conversion error,
which does not contain "required" and names neither convention — so the
claim's universally quantified "fails with an explicit required error" is
false as stated. -/
theorem fallback_required_error_counterexample :
    envTimeoutGarbage "OPENPROJECTBASE_URL" = none ∧
    envTimeoutGarbage "OPENPROJECTAPI_KEY" = none ∧
    envTimeoutGarbage "openprojectBaseUrl" = none ∧
    envTimeoutGarbage "openprojectApiKey" = none ∧
    create_with_fallback envTimeoutGarbage =
      .error "invalid literal for int() with base 10: \x27abc\x27" ∧
    ¬ containsSub "invalid literal for int() with base 10: \x27abc\x27" "required" := by
  refine ⟨rfl, rfl, rfl, rfl, by rfl, by decide⟩

/-- C4 (amended): whenever the primary construction fails and the
alternate timeout variable is unset or parses as an integer, the fallback
fails with the explicit "required" error naming both variable-name
conventions when the alternate base-URL variable is missing (or, that
variable being present, when the alternate API-key variable is missing);
and when only the alternate timeout variable is unset the constructed
settings carry the default timeout of 30 seconds. -/
theorem fallback_required_error_amended (env : Env)
    (hprim : ∀ s, primaryCreate env ≠ .ok s)
    (htime : ∃ t, pyIntParse ((env "openprojectTimeout").getD "30") = .ok t) :
    (pyFalsyOpt (env "openprojectBaseUrl") = true →
      create_with_fallback env =
        .error "OPENPROJECT_BASE_URL or openprojectBaseUrl is required" ∧
      containsSub "OPENPROJECT_BASE_URL or openprojectBaseUrl is required"
        "OPENPROJECT_BASE_URL" ∧
      containsSub "OPENPROJECT_BASE_URL or openprojectBaseUrl is required"
        "openprojectBaseUrl" ∧
      containsSub "OPENPROJECT_BASE_URL or openprojectBaseUrl is required" "required")
    ∧ (pyFalsyOpt (env "openprojectBaseUrl") = false →
       pyFalsyOpt (env "openprojectApiKey") = true →
      create_with_fallback env =
        .error "OPENPROJECT_API_KEY or openprojectApiKey is required" ∧
      containsSub "OPENPROJECT_API_KEY or openprojectApiKey is required"
        "OPENPROJECT_API_KEY" ∧
      containsSub "OPENPROJECT_API_KEY or openprojectApiKey is required"
        "openprojectApiKey" ∧
      containsSub "OPENPROJECT_API_KEY or openprojectApiKey is required" "required")
    ∧ (env "openprojectTimeout" = none →
      ∀ s, create_with_fallback env = .ok s → s.timeout = 30) := by
  obtain ⟨t, ht⟩ := htime
  have hp : ∃ e0, primaryCreate env = .error e0 := by
    cases hpc : primaryCreate env with
    | ok s => exact absurd hpc (hprim s)
    | error e0 => exact ⟨e0, rfl⟩
  obtain ⟨e0, hp⟩ := hp
  refine ⟨?_, ?_, ?_⟩
  · intro hbu
    exact ⟨by simp [create_with_fallback, hp, ht, hbu], by decide, by decide, by decide⟩
  · intro hbu hak
    exact ⟨by simp [create_with_fallback, hp, ht, hbu, hak], by decide, by decide, by decide⟩
  · intro htn s hs
    have h30 : pyIntParse ((env "openprojectTimeout").getD "30") = .ok 30 := by
      rw [htn]; rfl
    unfold create_with_fallback at hs
    rw [hp, h30] at hs
    dsimp only at hs
    by_cases hbu : pyFalsyOpt (env "openprojectBaseUrl") = true
    · simp [hbu] at hs
    · by_cases hak : pyFalsyOpt (env "openprojectApiKey") = true
      · simp [hbu, hak] at hs
      · simp [hbu, hak] at hs
        rw [settingsCreate_eval] at hs
        split at hs
        · split at hs
          · simp at hs
          · simp at hs; simp [← hs]
        · simp at hs

/-- C4 witness: the empty environment fails with the required error naming
both conventions, and an environment with only the camelCase URL and key
set (no timeout) constructs settings with the default timeout 30. -/
theorem fallback_required_error_amended_witness :
    (create_with_fallback envEmpty =
        .error "OPENPROJECT_BASE_URL or openprojectBaseUrl is required" ∧
      containsSub "OPENPROJECT_BASE_URL or openprojectBaseUrl is required"
        "OPENPROJECT_BASE_URL" ∧
      containsSub "OPENPROJECT_BASE_URL or openprojectBaseUrl is required"
        "openprojectBaseUrl" ∧
      containsSub "OPENPROJECT_BASE_URL or openprojectBaseUrl is required" "required") ∧
    (∀ s, create_with_fallback envSmitheryOk = .ok s → s.timeout = 30) :=
  ⟨(fallback_required_error_amended envEmpty
      (by intro s h; simp [primaryCreate, envEmpty] at h)
      ⟨30, by rfl⟩).1 (by rfl),
   (fallback_required_error_amended envSmitheryOk
      (by intro s h; simp [primaryCreate, envSmitheryOk] at h)
      ⟨30, by rfl⟩).2.2 (by rfl)⟩

/-- C1: when the automatic translator raises on invocation, the registry
created by create_mcp_server is exactly the fixed manual tool set — the
status probe plus the five operational tools, in registration order — and
every registered tool is manually declared, none translator-derived. -/
theorem fallback_registry_is_manual_tools (env : Env) (specPath : String)
    (file : Option String) (parseYaml : String → Except String Json)
    (translator : Json → Except String (List String)) (cfg : OpenProjectSettings)
    (spec : Json) (e : String)
    (hcfg : primaryCreate env = .ok cfg)
    (hspec : load_openapi_spec specPath file parseYaml = .ok spec)
    (htr : translator spec = .error e) :
    createMcpServer env specPath file parseYaml translator = .ok manualTools ∧
    manualTools.map ToolDecl.name =
      ["get_status", "get_projects", "get_project_work_packages",
       "get_overdue_work_packages", "get_user_info", "generate_weekly_report"] ∧
    (∀ t ∈ manualTools, t.provenance = .manual) := by
  refine ⟨?_, rfl, by decide⟩
  simp [createMcpServer, hcfg, hspec, buildToolSurface, htr]

/-- C1 witness: a concrete well-formed configuration, a parser that yields
a spec with an empty paths table, and a translator that raises, produce
exactly the manual registry. -/
theorem fallback_registry_is_manual_tools_witness :
    createMcpServer envPrimaryOk "/app/spec.yml" (some "openapi: 3.0.0")
      parseOkStub translatorFail = .ok manualTools ∧
    manualTools.map ToolDecl.name =
      ["get_status", "get_projects", "get_project_work_packages",
       "get_overdue_work_packages", "get_user_info", "generate_weekly_report"] ∧
    (∀ t ∈ manualTools, t.provenance = .manual) :=
  fallback_registry_is_manual_tools envPrimaryOk "/app/spec.yml" (some "openapi: 3.0.0")
    parseOkStub translatorFail
    ⟨rstripSlash "https://op.example.com", "abcdefghij", 30⟩
    (.obj [("paths", .obj [])]) "unsupported schema shape" (by rfl) (by rfl) (by rfl)

/-- C5: the loader fails with a file-not-found error naming the resolved
path when the file is absent, and with a ValueError wrapping the parser
message when the content does not parse; in the latter case server
creation returns that error for every translator — the translator, the
only component that would exercise the network client during creation, is
never consulted. -/
theorem spec_loader_failure_modes (env : Env) (specPath content e : String)
    (parseYaml : String → Except String Json) (cfg : OpenProjectSettings)
    (hcfg : primaryCreate env = .ok cfg)
    (hparse : parseYaml content = .error e) :
    (load_openapi_spec specPath none parseYaml =
        .error ("OpenAPI spec file not found: " ++ specPath) ∧
      containsSub ("OpenAPI spec file not found: " ++ specPath) specPath) ∧
    (load_openapi_spec specPath (some content) parseYaml =
        .error ("Invalid YAML in OpenAPI spec: " ++ e) ∧
      containsSub ("Invalid YAML in OpenAPI spec: " ++ e) e) ∧
    (∀ translator, createMcpServer env specPath (some content) parseYaml translator =
        .error ("Invalid YAML in OpenAPI spec: " ++ e)) ∧
    (∀ translatorA translatorB,
      createMcpServer env specPath (some content) parseYaml translatorA =
      createMcpServer env specPath (some content) parseYaml translatorB) := by
  have hload : load_openapi_spec specPath (some content) parseYaml =
      .error ("Invalid YAML in OpenAPI spec: " ++ e) := by
    simp [load_openapi_spec, hparse]
  have hcreate : ∀ translator,
      createMcpServer env specPath (some content) parseYaml translator =
        .error ("Invalid YAML in OpenAPI spec: " ++ e) := by
    intro translator
    simp [createMcpServer, hcfg, hload]
  refine ⟨⟨rfl, containsSub_right _ _⟩, ⟨hload, containsSub_right _ _⟩, hcreate, ?_⟩
  intro translatorA translatorB
  rw [hcreate translatorA, hcreate translatorB]

/-- C5 witness: with a well-formed configuration and a parser that rejects
the content, creation fails with the wrapped parse error for an arbitrary
concrete translator. -/
theorem spec_loader_failure_modes_witness :
    (load_openapi_spec "/app/spec.yml" none parseFailStub =
        .error ("OpenAPI spec file not found: " ++ "/app/spec.yml") ∧
      containsSub ("OpenAPI spec file not found: " ++ "/app/spec.yml") "/app/spec.yml") ∧
    (load_openapi_spec "/app/spec.yml" (some "key: : bad") parseFailStub =
        .error ("Invalid YAML in OpenAPI spec: " ++ "mapping values are not allowed here") ∧
      containsSub ("Invalid YAML in OpenAPI spec: " ++ "mapping values are not allowed here")
        "mapping values are not allowed here") ∧
    (∀ translator, createMcpServer envPrimaryOk "/app/spec.yml" (some "key: : bad")
        parseFailStub translator =
        .error ("Invalid YAML in OpenAPI spec: " ++ "mapping values are not allowed here")) ∧
    (∀ translatorA translatorB,
      createMcpServer envPrimaryOk "/app/spec.yml" (some "key: : bad") parseFailStub translatorA =
      createMcpServer envPrimaryOk "/app/spec.yml" (some "key: : bad") parseFailStub translatorB) :=
  spec_loader_failure_modes envPrimaryOk "/app/spec.yml" "key: : bad"
    "mapping values are not allowed here" parseFailStub
    ⟨rstripSlash "https://op.example.com", "abcdefghij", 30⟩ (by rfl) (by rfl)

/-- C2: every manual fallback tool is a total String-valued function (no
exception escapes), and on every input it either succeeds, returning the
corresponding success string, or returns a string containing "Error"
produced from the caught exception; the status probe returns its constant
string. -/
theorem manual_tools_never_raise :
    (∀ remote : Remote,
      (∃ j, remote projectsReq = .ok j ∧
        get_projects remote = "Projects retrieved successfully: " ++ pyRepr j) ∨
      containsSub (get_projects remote) "Error")
    ∧ (∀ (pid sf : String) (remote : Remote),
      (∃ j, get_project_work_packages_inner pid sf remote = .ok j ∧
        get_project_work_packages pid sf remote = "Project work packages: " ++ pyRepr j) ∨
      containsSub (get_project_work_packages pid sf remote) "Error")
    ∧ (∀ (days : Int) (remote : Remote),
      (∃ j, get_overdue_work_packages_inner days remote = .ok j ∧
        get_overdue_work_packages days remote =
          "Overdue/Urgent work packages: " ++ pyRepr j) ∨
      containsSub (get_overdue_work_packages days remote) "Error")
    ∧ (∀ (uid : String) (remote : Remote),
      (∃ j, remote (userReq uid) = .ok j ∧
        get_user_info uid remote = "User information: " ++ pyRepr j) ∨
      containsSub (get_user_info uid remote) "Error")
    ∧ (∀ (pids : Option (List String)) (remote : Remote),
      (∃ rep, (generate_weekly_report_run pids remote).1 = .ok rep ∧
        generate_weekly_report pids remote =
          "Weekly report generated: " ++ renderWeeklyReport rep) ∨
      containsSub (generate_weekly_report pids remote) "Error")
    ∧ get_status =
        "OpenProject MCP Server is running with manual API tools (enhanced fallback mode)" := by
  refine ⟨?_, ?_, ?_, ?_, ?_, rfl⟩
  · intro remote
    cases h : remote projectsReq with
    | ok j =>
      left
      exact ⟨j, rfl, by simp [get_projects, get_projects_inner, h]⟩
    | error e =>
      right
      rw [show get_projects remote = "Error retrieving projects: " ++ e from by
        simp [get_projects, get_projects_inner, h]]
      exact containsSub_app_left _ _ (show containsSub "Error retrieving projects: " "Error"
        from by decide)
  · intro pid sf remote
    cases h : get_project_work_packages_inner pid sf remote with
    | ok j =>
      left
      exact ⟨j, rfl, by simp [get_project_work_packages, h]⟩
    | error e =>
      right
      rw [show get_project_work_packages pid sf remote =
          "Error retrieving project work packages: " ++ e from by
        simp [get_project_work_packages, h]]
      exact containsSub_app_left _ _
        (show containsSub "Error retrieving project work packages: " "Error" from by decide)
  · intro days remote
    cases h : get_overdue_work_packages_inner days remote with
    | ok j =>
      left
      exact ⟨j, rfl, by simp [get_overdue_work_packages, h]⟩
    | error e =>
      right
      rw [show get_overdue_work_packages days remote =
          "Error retrieving overdue work packages: " ++ e from by
        simp [get_overdue_work_packages, h]]
      exact containsSub_app_left _ _
        (show containsSub "Error retrieving overdue work packages: " "Error" from by decide)
  · intro uid remote
    cases h : remote (userReq uid) with
    | ok j =>
      left
      exact ⟨j, rfl, by simp [get_user_info, get_user_info_inner, h]⟩
    | error e =>
      right
      rw [show get_user_info uid remote = "Error retrieving user info: " ++ e from by
        simp [get_user_info, get_user_info_inner, h]]
      exact containsSub_app_left _ _
        (show containsSub "Error retrieving user info: " "Error" from by decide)
  · intro pids remote
    rcases h : generate_weekly_report_run pids remote with ⟨r, calls⟩
    cases r with
    | ok rep =>
      left
      exact ⟨rep, by simp [h], by simp [generate_weekly_report, h]⟩
    | error e =>
      right
      rw [show generate_weekly_report pids remote = "Error generating weekly report: " ++ e
        from by simp [generate_weekly_report, h]]
      exact containsSub_app_left _ _
        (show containsSub "Error generating weekly report: " "Error" from by decide)

theorem isObj_eq (j : Json) (h : isObj j = true) : ∃ kvs, j = .obj kvs := by
  cases j <;> simp [isObj] at h ⊢

theorem reshapeWP_wf (wp : Json) (h : wellFormedWP wp = true) :
    reshapeWP wp = .ok (reshapedWP wp) := by
  simp only [wellFormedWP, Bool.and_eq_true] at h
  obtain ⟨⟨⟨h1, h2⟩, h3⟩, h4⟩ := h
  obtain ⟨kvs, rfl⟩ := isObj_eq _ h1
  obtain ⟨ekvs, hemb⟩ := isObj_eq _ h2
  have hembOf : embOf (Json.obj kvs) = ekvs := by simp [embOf, hemb]
  rw [hembOf] at h3 h4
  obtain ⟨skvs, hst⟩ := isObj_eq _ h3
  obtain ⟨akvs, hasg⟩ := isObj_eq _ h4
  have hemb2 : (kvs.lookup "_embedded").getD (.obj []) = .obj ekvs := by
    simpa [objGetD] using hemb
  simp [reshapeWP, pyGet, hemb2, hst, hasg, reshapedWP, objGetD, hembOf, nameOf]

/-- C6 (amended): for every project id, status filter and remote response
of shape (total n, embedded elements es) whose elements are well-formed
work-package items, the tool returns the summary whose total_work_packages
is n and whose work_packages list is the first min(length es, 10) items,
each reshaped to exactly the six documented fields; the issued filter
expression selects open status when the filter argument is "open" and is
the empty filter list otherwise. -/
theorem get_project_work_packages_summary (pid sf : String) (n : Json) (es : List Json)
    (remote : Remote)
    (hresp : remote (projectWPReq pid sf) = .ok (wpCollection n es))
    (hwf : ∀ wp ∈ es, wellFormedWP wp = true) :
    get_project_work_packages_inner pid sf remote =
      .ok (.obj [("project_id", .str pid), ("total_work_packages", n),
                 ("status_filter", .str sf),
                 ("work_packages", .arr ((es.take 10).map reshapedWP))]) ∧
    get_project_work_packages pid sf remote =
      "Project work packages: " ++
        pyRepr (.obj [("project_id", .str pid), ("total_work_packages", n),
                      ("status_filter", .str sf),
                      ("work_packages", .arr ((es.take 10).map reshapedWP))]) ∧
    ((es.take 10).map reshapedWP).length = min es.length 10 ∧
    (sf = "open" → (projectWPReq pid sf).filters = some openStatusFilter) ∧
    (sf ≠ "open" → (projectWPReq pid sf).filters = some "[]") := by
  have hmap : mapExcept reshapeWP (es.take 10) = .ok ((es.take 10).map reshapedWP) :=
    mapExcept_eq_map _ _ _ (fun wp hwp => reshapeWP_wf wp (hwf wp (List.take_subset _ _ hwp)))
  have hinner : get_project_work_packages_inner pid sf remote =
      .ok (.obj [("project_id", .str pid), ("total_work_packages", n),
                 ("status_filter", .str sf),
                 ("work_packages", .arr ((es.take 10).map reshapedWP))]) := by
    simp [get_project_work_packages_inner, hresp, wpCollection, pyGet, pySlice, hmap,
      List.lookup]
  refine ⟨hinner, ?_, ?_, ?_, ?_⟩
  · simp [get_project_work_packages, hinner]
  · simp [List.length_take, Nat.min_comm]
  · intro h
    subst h
    rfl
  · intro h
    simp [projectWPReq, h]

/-- C6 witness: against a stub returning total 2 and two well-formed
elements, the summary has total_work_packages 2 and min(2, 10) = 2 items
with the six documented fields. -/
theorem get_project_work_packages_summary_witness :
    get_project_work_packages_inner "42" "open" remoteTwoWP =
      .ok (.obj [("project_id", .str "42"), ("total_work_packages", .num 2),
                 ("status_filter", .str "open"),
                 ("work_packages", .arr (([wpA, wpB].take 10).map reshapedWP))]) ∧
    get_project_work_packages "42" "open" remoteTwoWP =
      "Project work packages: " ++
        pyRepr (.obj [("project_id", .str "42"), ("total_work_packages", .num 2),
                      ("status_filter", .str "open"),
                      ("work_packages", .arr (([wpA, wpB].take 10).map reshapedWP))]) ∧
    (([wpA, wpB].take 10).map reshapedWP).length = min [wpA, wpB].length 10 ∧
    ("open" = "open" → (projectWPReq "42" "open").filters = some openStatusFilter) ∧
    ("open" ≠ "open" → (projectWPReq "42" "open").filters = some "[]") :=
  get_project_work_packages_summary "42" "open" (.num 2) [wpA, wpB] remoteTwoWP
    (by rfl) (by decide)

/-- C6 counterexample: a remote response of exactly the documented shape
(total 2, embedded elements) whose elements are ints makes the reshaping
raise AttributeError, so the tool returns an error string and no summary —
refuting the claim as universally stated over responses of that shape. -/
theorem get_project_work_packages_counterexample :
    remoteNonDictElements (projectWPReq "42" "open") =
      .ok (wpCollection (.num 2) [.num 5, .num 6]) ∧
    get_project_work_packages "42" "open" remoteNonDictElements =
      "Error retrieving project work packages: \x27int\x27 object has no attribute \x27get\x27" ∧
    containsSub (get_project_work_packages "42" "open" remoteNonDictElements) "Error" := by
  refine ⟨by rfl, by rfl, ?_⟩
  rw [show get_project_work_packages "42" "open" remoteNonDictElements =
    "Error retrieving project work packages: \x27int\x27 object has no attribute \x27get\x27"
    from by rfl]
  decide

theorem analyzeProject_ok_inv (remote : Remote) (pid : String) (s : ProjectSummary)
    (calls : List Request) (h : analyzeProject remote pid = (.ok s, calls)) :
    calls = threeCalls pid ∧ s.project_id = pid ∧
    ∀ od, remote (openWPReq pid) = .ok od →
      s.completion = _calculate_project_completion od := by
  unfold analyzeProject at h
  cases h1 : remote (projectDetailReq pid) with
  | error e => rw [h1] at h; simp at h
  | ok pdata =>
    rw [h1] at h
    dsimp only at h
    cases h2 : remote (openWPReq pid) with
    | error e => rw [h2] at h; simp at h
    | ok odata =>
      rw [h2] at h
      dsimp only at h
      cases h3 : remote (projectOverdueReq pid) with
      | error e => rw [h3] at h; simp at h
      | ok udata =>
        rw [h3] at h
        dsimp only at h
        cases hn : pyGet pdata "name" .null with
        | error e => rw [hn] at h; simp at h
        | ok name =>
          rw [hn] at h
          simp only [exceptBindOk] at h
          cases ht : pyGet odata "total" (.num 0) with
          | error e => rw [ht] at h; simp at h
          | ok tot =>
            rw [ht] at h
            simp only [exceptBindOk] at h
            cases hu : pyGet udata "total" (.num 0) with
            | error e => rw [hu] at h; simp at h
            | ok urg =>
              rw [hu] at h
              simp only [exceptBindOk, exceptPure] at h
              rw [Prod.mk.injEq] at h
              obtain ⟨hsv, hcv⟩ := h
              rw [Except.ok.injEq] at hsv
              refine ⟨hcv.symm, by simp [← hsv], ?_⟩
              intro od hod
              rw [Except.ok.injEq] at hod
              simp [← hsv, ← hod]

theorem analyzeLoop_ok_inv (remote : Remote) :
    ∀ (ids : List String) (ss : List ProjectSummary),
      (analyzeLoop remote ids).1 = .ok ss →
      (analyzeLoop remote ids).2 = ids.flatMap threeCalls ∧ ss.length = ids.length := by
  intro ids
  induction ids with
  | nil => intro ss h; simp [analyzeLoop] at h ⊢; simp [← h]
  | cons pid rest ih =>
    intro ss h
    rcases hap : analyzeProject remote pid with ⟨r, calls⟩
    cases r with
    | error e => rw [analyzeLoop, hap] at h ⊢; simp at h
    | ok s =>
      rcases hal : analyzeLoop remote rest with ⟨r2, calls2⟩
      cases r2 with
      | error e => rw [analyzeLoop, hap, hal] at h ⊢; simp at h
      | ok ss2 =>
        rw [analyzeLoop, hap, hal] at h
        dsimp only at h
        rw [Except.ok.injEq] at h
        have hcalls := (analyzeProject_ok_inv remote pid s calls hap).1
        have hr := ih ss2 (by rw [hal])
        rw [hal] at hr
        dsimp only at hr
        constructor
        · rw [analyzeLoop, hap, hal]
          dsimp only
          rw [hcalls, hr.1, List.flatMap_cons]
        · rw [← h]
          simp [hr.2]

theorem extractProjectIds_objs (ps : List Json) (hps : ∀ p ∈ ps, isObj p = true) :
    extractProjectIds (projectsCollection ps) =
      .ok (ps.map (fun p => pyStr (objGetD p "id" .null))) := by
  have hmap : mapExcept (fun p => do
      let i ← pyGet p "id" .null
      return pyStr i) ps = .ok (ps.map (fun p => pyStr (objGetD p "id" .null))) := by
    refine mapExcept_eq_map _ _ _ (fun p hp => ?_)
    obtain ⟨kvs, rfl⟩ := isObj_eq p (hps p hp)
    simp [pyGet, objGetD]
  unfold extractProjectIds
  rw [show pyGet (projectsCollection ps) "_embedded" (.obj []) =
      .ok (.obj [("elements", .arr ps)]) from rfl]
  simp only [exceptBindOk]
  rw [show pyGet (Json.obj [("elements", Json.arr ps)]) "elements" (.arr []) =
      .ok (.arr ps) from rfl]
  simp only [exceptBindOk]
  rw [show pyIter (Json.arr ps) = .ok ps from rfl]
  simp only [exceptBindOk]
  exact hmap

theorem calcCompletion_avg (n : Json) (es : List Json) (ns : List Int)
    (hns : mapExcept pdOf es = .ok ns) (hne : es ≠ []) :
    _calculate_project_completion (wpCollection n es) =
      .float (pyRound1 ((ns.sum : Rat) / (ns.length : Rat))) := by
  have hlen := mapExcept_ok_length pdOf es ns hns
  have hfalsy : pyFalsy (.arr es) = false := by
    simp [pyFalsy, List.isEmpty_iff, hne]
  unfold _calculate_project_completion calcInner
  rw [show pyGet (wpCollection n es) "_embedded" (.obj []) =
      .ok (.obj [("elements", .arr es)]) from rfl]
  simp only [exceptBindOk]
  rw [show pyGet (Json.obj [("elements", Json.arr es)]) "elements" (.arr []) =
      .ok (.arr es) from rfl]
  simp only [exceptBindOk]
  rw [hfalsy]
  rw [if_neg (by simp)]
  rw [show pyIter (Json.arr es) = .ok es from rfl]
  simp only [exceptBindOk]
  rw [hns]
  simp only [exceptBindOk, exceptPure]
  rw [hlen]

/-- C7: the weekly report, with no ids given, first lists all projects and
takes their ids (the id strings of the element objects), then analyzes at
most the first 5 ids — likewise when ids are given explicitly — issuing
exactly the three calls (project detail, open work packages, overdue work
packages) per successfully analyzed project; each summary's
completion_percentage is computed by _calculate_project_completion on the
open-work-package response, which equals the rounded average of
percentageDone over the elements, is the int 0 on an empty element list,
and is the int 0 whenever the computation raises. -/
theorem generate_weekly_report_correct :
    (∀ (remote : Remote) (ps : List Json) (ids : List String),
      remote projectsReq = .ok (projectsCollection ps) →
      extractProjectIds (projectsCollection ps) = .ok ids →
      generate_weekly_report_run none remote =
        (liftReport (analyzeLoop remote (ids.take 5)).1,
         projectsReq :: (analyzeLoop remote (ids.take 5)).2))
    ∧ (∀ (ps : List Json), (∀ p ∈ ps, isObj p = true) →
      extractProjectIds (projectsCollection ps) =
        .ok (ps.map (fun p => pyStr (objGetD p "id" .null))))
    ∧ (∀ (remote : Remote) (pid : String) (rest : List String),
      generate_weekly_report_run (some (pid :: rest)) remote =
        (liftReport (analyzeLoop remote ((pid :: rest).take 5)).1,
         (analyzeLoop remote ((pid :: rest).take 5)).2))
    ∧ (∀ (remote : Remote) (ids : List String) (ss : List ProjectSummary),
      (analyzeLoop remote ids).1 = .ok ss →
      (analyzeLoop remote ids).2 = ids.flatMap threeCalls ∧ ss.length = ids.length)
    ∧ (∀ (remote : Remote) (pid : String) (s : ProjectSummary) (calls : List Request)
        (od : Json),
      analyzeProject remote pid = (.ok s, calls) →
      remote (openWPReq pid) = .ok od →
      s.project_id = pid ∧ s.completion = _calculate_project_completion od)
    ∧ (∀ (n : Json) (es : List Json) (ns : List Int),
      mapExcept pdOf es = .ok ns → es ≠ [] →
      _calculate_project_completion (wpCollection n es) =
        .float (pyRound1 ((ns.sum : Rat) / (ns.length : Rat))))
    ∧ (∀ n : Json, _calculate_project_completion (wpCollection n []) = .int 0)
    ∧ (∀ (data : Json) (e : String), calcInner data = .error e →
      _calculate_project_completion data = .int 0) := by
  refine ⟨?_, extractProjectIds_objs, ?_, analyzeLoop_ok_inv, ?_, calcCompletion_avg, ?_, ?_⟩
  · intro remote ps ids hresp hids
    rcases hal : analyzeLoop remote (ids.take 5) with ⟨r, calls⟩
    unfold generate_weekly_report_run
    rw [hresp]
    dsimp only
    rw [hids]
    dsimp only
    rw [hal]
  · intro remote pid rest
    rcases hal : analyzeLoop remote ((pid :: rest).take 5) with ⟨r, calls⟩
    unfold generate_weekly_report_run
    dsimp only
    rw [hal]
  · intro remote pid s calls od h hod
    have := analyzeProject_ok_inv remote pid s calls h
    exact ⟨this.2.1, this.2.2 od hod⟩
  · intro n
    rfl
  · intro data e h
    simp [_calculate_project_completion, h]

/-- C7 witness: against a stub exposing one project (id 7) with open work
packages at 30 and 40 percent, the run lists projects first and analyzes
id "7"; the completion on those elements is the rounded average of 30 and
40, and the empty element list gives 0. -/
theorem generate_weekly_report_correct_witness :
    (generate_weekly_report_run none remoteOneProject =
      (liftReport (analyzeLoop remoteOneProject (["7"].take 5)).1,
       projectsReq :: (analyzeLoop remoteOneProject (["7"].take 5)).2)) ∧
    (_calculate_project_completion
        (wpCollection (.num 2)
          [.obj [("percentageDone", .num 30)], .obj [("percentageDone", .num 40)]]) =
      .float (pyRound1 ((([30, 40] : List Int).sum : Rat) / (([30, 40] : List Int).length : Rat)))) ∧
    (_calculate_project_completion (wpCollection (.num 0) []) = .int 0) :=
  ⟨generate_weekly_report_correct.1 remoteOneProject [.obj [("id", .num 7)]] ["7"]
      (by rfl) (by rfl),
   generate_weekly_report_correct.2.2.2.2.2.1 (.num 2)
      [.obj [("percentageDone", .num 30)], .obj [("percentageDone", .num 40)]] [30, 40]
      (by rfl) (by simp),
   generate_weekly_report_correct.2.2.2.2.2.2.1 (.num 0)⟩

/-- C9: whenever generate_weekly_report produces a report, its
generated_at field is the hard-coded constant "2025-10-20" (and its
report_type the constant "weekly_project_summary"), independent of
anything about the invocation. -/
theorem weekly_generated_at_constant (pids : Option (List String)) (remote : Remote)
    (rep : WeeklyReport) (calls : List Request)
    (h : generate_weekly_report_run pids remote = (.ok rep, calls)) :
    rep.generated_at = "2025-10-20" ∧ rep.report_type = "weekly_project_summary" := by
  have lift_inv : ∀ (r : Except String (List ProjectSummary)), liftReport r = .ok rep →
      rep.generated_at = "2025-10-20" ∧ rep.report_type = "weekly_project_summary" := by
    intro r hr
    cases r with
    | error e => simp [liftReport, Except.map] at hr
    | ok ss =>
      rw [show liftReport (.ok ss) =
        .ok ⟨"weekly_project_summary", "2025-10-20", ss⟩ from rfl] at hr
      rw [Except.ok.injEq] at hr
      rw [← hr]
      exact ⟨rfl, rfl⟩
  rcases pids with _ | ⟨_ | ⟨pid, rest⟩⟩
  · unfold generate_weekly_report_run at h
    dsimp only at h
    cases hr : remote projectsReq with
    | error e => rw [hr] at h; simp at h
    | ok pdata =>
      rw [hr] at h
      dsimp only at h
      cases hx : extractProjectIds pdata with
      | error e => rw [hx] at h; simp at h
      | ok ids =>
        rw [hx] at h
        dsimp only at h
        rcases hal : analyzeLoop remote (ids.take 5) with ⟨r, calls2⟩
        rw [hal] at h
        dsimp only at h
        rw [Prod.mk.injEq] at h
        exact lift_inv r h.1
  · unfold generate_weekly_report_run at h
    dsimp only at h
    cases hr : remote projectsReq with
    | error e => rw [hr] at h; simp at h
    | ok pdata =>
      rw [hr] at h
      dsimp only at h
      cases hx : extractProjectIds pdata with
      | error e => rw [hx] at h; simp at h
      | ok ids =>
        rw [hx] at h
        dsimp only at h
        rcases hal : analyzeLoop remote (ids.take 5) with ⟨r, calls2⟩
        rw [hal] at h
        dsimp only at h
        rw [Prod.mk.injEq] at h
        exact lift_inv r h.1
  · unfold generate_weekly_report_run at h
    dsimp only at h
    rcases hal : analyzeLoop remote ((pid :: rest).take 5) with ⟨r, calls2⟩
    rw [hal] at h
    dsimp only at h
    rw [Prod.mk.injEq] at h
    exact lift_inv r h.1

/-- C9 witness: a concrete run against a stub remote yields a report whose
generated_at is "2025-10-20" regardless of the invocation date. -/
theorem weekly_generated_at_constant_witness :
    (⟨"weekly_project_summary", "2025-10-20",
      [⟨"7", .str "Proj7", .num 0, .num 0, .int 0⟩]⟩ : WeeklyReport).generated_at =
        "2025-10-20" ∧
    (⟨"weekly_project_summary", "2025-10-20",
      [⟨"7", .str "Proj7", .num 0, .num 0, .int 0⟩]⟩ : WeeklyReport).report_type =
        "weekly_project_summary" :=
  weekly_generated_at_constant none remoteEmptyProject
    ⟨"weekly_project_summary", "2025-10-20", [⟨"7", .str "Proj7", .num 0, .num 0, .int 0⟩]⟩
    [projectsReq, projectDetailReq "7", openWPReq "7", projectOverdueReq "7"]
    (by rfl)

end OpenProject
